/-
Verification of the `createAffiliate` Lambda handler
(src/amplify/backend/function/createAffiliate/src/index.js).

The file shallowly embeds the handler as a pure Lean function: the outbound
HTTP layer is replaced by a `Vendor` oracle that supplies the response each
endpoint would return, and the handler produces its caller-facing `Resp`
together with the ordered list of outbound `Call`s it issued.  JavaScript
values appearing in the request payload are modelled by `JVal`; JavaScript
exceptions (the only reachable one is the `TypeError` raised by calling
string methods on a truthy non-string `country`) are modelled by
`Except String` and converted to the top-level catch-all 500 response, just
as the source's outermost try/catch does.

Deliberate abstractions (none affect the verified claims):
* CORS headers are identical on every response and are omitted.
* Logging (`console.*`) is pure output in the source and is dropped.
* The custom-field cache (`customFieldsCache`) is dead within a single
  invocation: `CACHE_DURATION` is 0, so the `now - cacheTimestamp <
  CACHE_DURATION` branch can never be taken and `getCustomFieldKeys` always
  performs the GET; the embedding reflects that.
* `fetch` is modelled as never throwing and vendor 2xx bodies as always
  parsing; the claims quantify over this vendor model.
* The vendor's reply to the best-effort parent-link call is only logged by
  the source, so the oracle field `parentOk` is (faithfully) never read.
-/
import Mathlib

set_option linter.unusedVariables false
set_option linter.unusedTactic false
set_option linter.unreachableTactic false
set_option linter.unnecessarySimpa false

namespace CreateAffiliate

/-- JavaScript `String.prototype.trim` (char-level, so that proofs can
evaluate it by kernel reduction). -/
def jsTrim (s : String) : String :=
  ⟨((s.data.dropWhile Char.isWhitespace).reverse.dropWhile Char.isWhitespace).reverse⟩

/-- JavaScript `String.prototype.toLowerCase` (ASCII, char-level). -/
def jsLower (s : String) : String := ⟨s.data.map Char.toLower⟩

/-- JavaScript `String.prototype.toUpperCase` (ASCII, char-level). -/
def jsUpper (s : String) : String := ⟨s.data.map Char.toUpper⟩

/-- A JavaScript value as it can occur in the parsed JSON request body
(objects are represented where needed by dedicated structures). -/
inductive JVal where
  | vUndefined
  | vNull
  | vStr (s : String)
  | vNum (n : Int)
  | vBool (b : Bool)
deriving DecidableEq, Repr

/-- JavaScript truthiness of a `JVal`. -/
def JVal.truthy : JVal → Bool
  | .vUndefined => false
  | .vNull => false
  | .vStr s => s ≠ ""
  | .vNum n => n ≠ 0
  | .vBool b => b

/-- JavaScript `String(v)` coercion. -/
def JVal.jsToString : JVal → String
  | .vUndefined => "undefined"
  | .vNull => "null"
  | .vStr s => s
  | .vNum n => toString n
  | .vBool b => if b then "true" else "false"

/-- The missing-field test used by both validation blocks of the source:
`value === undefined || value === null ||
 (typeof value === 'string' && value.trim() === '')`. -/
def isMissing : JVal → Bool
  | .vUndefined => true
  | .vNull => true
  | .vStr s => jsTrim s == ""
  | _ => false

/-- `normalizeFieldLabel` (index.js line 20): trim and lowercase. -/
def normalizeFieldLabel (label : String) : String :=
  jsLower (jsTrim label)

/-- The static country lookup table of `getCountryISOCode`. -/
def countryMap : List (String × String) :=
  [("United Kingdom", "GB"), ("UK", "GB"), ("United States", "US"),
   ("USA", "US"), ("US", "US"), ("Canada", "CA"), ("Australia", "AU"),
   ("Germany", "DE"), ("France", "FR"), ("Spain", "ES"), ("Italy", "IT"),
   ("Netherlands", "NL"), ("Belgium", "BE"), ("Switzerland", "CH"),
   ("Austria", "AT"), ("Sweden", "SE"), ("Norway", "NO"), ("Denmark", "DK"),
   ("Poland", "PL"), ("Portugal", "PT"), ("Ireland", "IE"), ("Greece", "GR"),
   ("Finland", "FI"), ("Czech Republic", "CZ"), ("Hungary", "HU"),
   ("Romania", "RO"), ("Bulgaria", "BG"), ("Croatia", "HR"),
   ("Slovakia", "SK"), ("Slovenia", "SI"), ("Estonia", "EE"),
   ("Latvia", "LV"), ("Lithuania", "LT"), ("Luxembourg", "LU"),
   ("Malta", "MT"), ("Cyprus", "CY")]

/-- `getCountryISOCode` (index.js lines 114-171).  A falsy input defaults to
`"GB"`; a 2-character string is returned uppercased before the table is ever
consulted; otherwise the first case-insensitive table match wins, defaulting
to `"GB"`.  A truthy non-string input makes the source call `.trim()` on a
non-string, raising a `TypeError` (propagated to the top-level catch). -/
def getCountryISOCode (countryName : JVal) : Except String String :=
  if !countryName.truthy then .ok "GB"
  else
    match countryName with
    | .vStr s =>
      if s.length == 2 then .ok (jsUpper s)
      else
        match countryMap.find? (fun p => jsLower p.1 == jsLower (jsTrim s)) with
        | some p => .ok p.2
        | none => .ok "GB"
    | _ => .error "TypeError: countryName.trim is not a function"

/-- `^[0-9]+$` : non-empty and all ASCII digits. -/
def digitsOnly (s : String) : Bool :=
  s ≠ "" && s.data.all Char.isDigit

/-- `validateParentId` (index.js lines 177-196): falsy input is rejected;
the value is stringified and trimmed; empty or the literal `"null"` is
rejected; only non-empty all-digit strings are accepted. -/
def validateParentId (rawParentId : JVal) : Option String :=
  if !rawParentId.truthy then none
  else
    let parentId :=
      match rawParentId with
      | .vStr s => jsTrim s
      | v => jsTrim v.jsToString
    if parentId == "" || parentId == "null" then none
    else if !digitsOnly parentId then none
    else some parentId

/-- The three canonical commission-type strings (repeated verbatim at
index.js lines 377-381, 576-580, 835-839 and 1010-1014). -/
def validCommissionTypes : List String :=
  ["I want 10% commission", "I want 10% discount code", "Custom"]

/-- The commission normalization applied (verbatim, in all four modes)
whenever a truthy `commission_type` reaches a resolved vendor field:
`validCommissionTypes.includes(x) ? x : validCommissionTypes[0]`. -/
def commissionTypeValue (v : JVal) : String :=
  match v with
  | .vStr s => if s ∈ validCommissionTypes then s else "I want 10% commission"
  | _ => "I want 10% commission"

/-- `companyTypeLabels` (index.js lines 357-366 and 990-999). -/
def companyTypeLabels : List (String × String) :=
  [("supply", "I want to store bags (Supply)"),
   ("vacation-rental", "Vacation Rental / STR / Airbnb Host"),
   ("pms", "PMS"), ("venue", "Venue"), ("blog", "Blog"),
   ("tour-operator", "Tour Operator"), ("transportations", "Transportations"),
   ("other", "Other")]

/-- `PROGRAM_ID_MAP` (index.js lines 6-11). -/
def programIdMap : List (String × String) :=
  [("USD", "stasher-affiliates-usd"), ("EUR", "stasher-affiliate-program-sp"),
   ("GBP", "stasher-affiliate-program"), ("AUD", "jg-affiliate-program")]

/-- `PROGRAM_ID_MAP[program] || program` : a JS property access coerces the
key to a string; an unmapped program passes through verbatim. -/
def programLookup (program : JVal) : JVal :=
  match programIdMap.find? (fun p => p.1 == program.jsToString) with
  | some p => .vStr p.2
  | none => program

/-! ### The custom-field catalog -/

/-- One raw entry of the vendor's `affiliates/custom-fields/` listing, as
consumed by `getCustomFieldKeys` (realistic vendor JSON carries strings;
the empty string plays the falsy case of `field.title`, `field.key`,
`field.id`). -/
structure RawField where
  title : String
  key : String
  id : String
deriving DecidableEq, Repr

/-- JS object assignment `m[k] = v`: overwrite in place if the key exists,
otherwise append (string-keyed JS objects preserve insertion order). -/
def setKey (m : List (String × String)) (k v : String) : List (String × String) :=
  if m.any (fun p => p.1 == k) then
    m.map (fun p => if p.1 == k then (k, v) else p)
  else m ++ [(k, v)]

/-- The field-map construction of `getCustomFieldKeys` (index.js lines
62-72): entries with truthy `title` and truthy `key || id` are inserted
under their normalized title, mapping to `field.key || field.id`. -/
def buildFieldMap (fields : List RawField) : List (String × String) :=
  fields.foldl
    (fun m f =>
      if f.title ≠ "" && (f.key ≠ "" || f.id ≠ "") then
        setKey m (normalizeFieldLabel f.title) (if f.key ≠ "" then f.key else f.id)
      else m)
    []

/-- A JS read `fieldKeyMap[label]` followed by the source's truthiness
check on the result: a stored falsy value behaves like a miss. -/
def flookup (m : List (String × String)) (label : String) : Option String :=
  match m.find? (fun p => p.1 == label) with
  | some p => if p.2 == "" then none else some p.2
  | none => none

/-! ### The inbound request -/

/-- The parsed JSON request body (`AffiliateRequest`).  `metadataWebsite`
stands for `metadata && metadata.website` collapsed to the website value
(absent/non-object `metadata` makes it `vUndefined`, hence falsy, exactly the
source's guard). -/
structure AffiliateRequest where
  mode : JVal := .vUndefined
  first_name : JVal := .vUndefined
  last_name : JVal := .vUndefined
  email : JVal := .vUndefined
  password : JVal := .vUndefined
  city : JVal := .vUndefined
  country : JVal := .vUndefined
  company : JVal := .vUndefined
  company_type : JVal := .vUndefined
  company_description : JVal := .vUndefined
  commission_type : JVal := .vUndefined
  parent_id : JVal := .vUndefined
  wantsDemoCall : JVal := .vUndefined
  metadataWebsite : JVal := .vUndefined
  program : JVal := .vUndefined
  affiliate_id : JVal := .vUndefined
  address : JVal := .vUndefined
deriving DecidableEq, Repr

/-- Dynamic field access `affiliateData[field]` for the names that appear
in the source's required-field lists. -/
def AffiliateRequest.get (d : AffiliateRequest) : String → JVal
  | "first_name" => d.first_name
  | "last_name" => d.last_name
  | "email" => d.email
  | "password" => d.password
  | "city" => d.city
  | "country" => d.country
  | "company" => d.company
  | _ => .vUndefined

/-- `requiredFieldsStageA` (index.js line 328). -/
def requiredFieldsStageA : List String :=
  ["first_name", "last_name", "email", "password"]

/-- `requiredFields` of the legacy mode (index.js line 954). -/
def requiredFieldsLegacy : List String :=
  ["first_name", "last_name", "email", "password", "city", "country", "company"]

/-! ### The creation payload -/

/-- A value stored at a top-level key of the creation payload. -/
inductive PVal where
  | scalar (v : JVal)
  | addrObj (city : JVal) (countryCode : String)
  | compObj (name : JVal)
  | customObj (fields : List (String × JVal))
deriving DecidableEq, Repr

/-- The clean-up predicate of `buildTapfiliatePayload` (index.js lines
252-257): scalar `undefined`, `null` and `''` entries are deleted; the
nested `address`/`company` objects never compare equal to those. -/
def isEmptyPVal : PVal → Bool
  | .scalar .vUndefined => true
  | .scalar .vNull => true
  | .scalar (.vStr "") => true
  | _ => false

/-- The `company_description` derivation shared by `buildTapfiliatePayload`
(index.js lines 221-229) and the finalize mode (lines 599-607):
`vacation-rental` forces `"STR"`; a whitelisted `company_type` passes the
supplied description through when truthy; anything else yields none. -/
def companyDescriptionFor (company_type company_description : JVal) : Option JVal :=
  if company_type == .vStr "vacation-rental" then some (.vStr "STR")
  else if company_type.truthy &&
      (["pms", "venue", "blog", "tour-operator", "transportations",
        "other"].any (fun s => company_type == JVal.vStr s)) then
    if company_description.truthy then some company_description else none
  else none

/-- `buildTapfiliatePayload` (index.js lines 199-260).  The key order of the
source object is preserved; `parent_id` is never added (line 241's comment);
the result is the cleaned-up key/value list, or the propagated `TypeError`
from `getCountryISOCode`. -/
def buildTapfiliatePayload (d : AffiliateRequest) :
    Except String (List (String × PVal)) :=
  match getCountryISOCode d.country with
  | .error msg => .error msg
  | .ok countryCode =>
    let base : List (String × PVal) :=
      [("firstname", .scalar d.first_name),
       ("lastname", .scalar d.last_name),
       ("email", .scalar d.email),
       ("password", .scalar d.password),
       ("address", .addrObj (if d.city.truthy then d.city else .vStr "n/a") countryCode),
       ("company", .compObj (if d.company.truthy then d.company else .vStr "n/a"))]
    let withDescr :=
      match companyDescriptionFor d.company_type d.company_description with
      | some descr => base ++ [("company_description", PVal.scalar descr)]
      | none => base
    .ok (withDescr.filter (fun kv => !isEmptyPVal kv.2))

/-! ### The vendor oracle and the outbound calls -/

/-- The shape of a raw vendor HTTP reply as far as the source inspects it. -/
structure HttpResp where
  ok : Bool
  status : Nat
  htmlContentType : Bool
deriving DecidableEq, Repr

/-- The error-body shapes distinguished by the creation-failure handler
(index.js lines 452-463): unparseable text, an `errors` array (elements
already coerced by `e.message || e`), a top-level `message`, or JSON of
neither shape. -/
inductive ErrBody where
  | notJson
  | errorsArr (msgs : List String)
  | msgField (m : String)
  | otherJson
deriving DecidableEq, Repr

/-- The message derivation of the creation-failure handler. -/
def vendorErrorMessage : ErrBody → String
  | .notJson =>
      "Something went wrong while creating your affiliate account. Please try again later."
  | .errorsArr msgs => String.intercalate ", " msgs
  | .msgField m => if m == "" then "Failed to create affiliate" else m
  | .otherJson => "Failed to create affiliate"

/-- The mocked vendor: one reply per endpoint the handler can hit in a
single invocation.  `catalog = none` models a failed or throwing
custom-fields fetch (`getCustomFieldKeys` returns `null`); `createId`
is `affiliate.id` of the creation reply (`vNull` models a body without a
truthy id, including a null body).  `parentOk` is never read because the
source only logs the parent-link reply. -/
structure Vendor where
  catalog : Option (List RawField)
  createResp : HttpResp
  createErr : ErrBody
  createId : JVal
  patchOk : Bool
  patchStatus : Nat
  metaOk : Bool
  enrollResp : HttpResp
  parentOk : Bool
deriving DecidableEq, Repr

/-- The vendor endpoints the handler addresses (ids as interpolated). -/
inductive Path where
  | customFields
  | affiliates
  | affiliateId (id : JVal)
  | metaWebsite (id : JVal)
  | parentOf (id : JVal)
  | programAffiliates (programId : JVal)
deriving DecidableEq, Repr

/-- The `company` part of a finalize PATCH body: the request's own company
object with an optional added `description`, or the synthesized
`{ name: 'n/a', description }` object. -/
inductive CompanyUpd where
  | fromInput (original : JVal) (description : Option JVal)
  | synthesized (description : JVal)
deriving DecidableEq, Repr

/-- The body of a PATCH `affiliates/{id}/` call. -/
structure UpdateBody where
  address : Option JVal
  company : Option CompanyUpd
  custom_fields : Option (List (String × JVal))
deriving DecidableEq, Repr

/-- The JSON body of an outbound call, as far as the claims inspect it. -/
inductive CallBody where
  | noBody
  | createPayload (p : List (String × PVal))
  | updatePayload (u : UpdateBody)
  | metaValue (v : JVal)
  | enrollAffiliate (affId : JVal)
  | parentVia (via : String)
deriving DecidableEq, Repr

/-- One outbound vendor call. -/
structure Call where
  method : String
  path : Path
  body : CallBody
deriving DecidableEq, Repr

/-- The GET issued unconditionally by `getCustomFieldKeys` (the cache test
`now - cacheTimestamp < CACHE_DURATION` is unsatisfiable at
`CACHE_DURATION = 0`). -/
def catalogCall : Call := ⟨"GET", .customFields, .noBody⟩

/-! ### The caller-facing response -/

/-- The distinct JSON response bodies the handler can return. -/
inductive RespBody where
  | empty
  | errOnly (error : String)
  | errWithStatus (error : String) (status : Nat)
  | internalErr (error : String) (message : String)
  | createOnlySuccess (affiliate_id : JVal)
  | finalizeSuccess (affiliate_id : JVal)
  | updateSuccess (affiliate_id : JVal)
  | updateNoop (affiliate_id : JVal) (message : String)
  | legacySuccess (affiliate_id : JVal)
deriving DecidableEq, Repr

/-- An HTTP-shaped response (CORS headers, identical everywhere, omitted). -/
structure Resp where
  statusCode : Nat
  body : RespBody
deriving DecidableEq, Repr

/-! ### Custom-field object construction -/

/-- The demo-call key lookup: `fieldKeyMap[normalize('Free DEMO call?')] ||
fieldKeyMap[normalize('Do you want a FREE DEMO call?')]`. -/
def demoCallKey (m : List (String × String)) : Option String :=
  (flookup m "free demo call?").orElse (fun _ => flookup m "do you want a free demo call?")

/-- JS object assignment on the `customFields` object (string keys, JVal
values): overwrite in place or append. -/
def setKeyJ (m : List (String × JVal)) (k : String) (v : JVal) : List (String × JVal) :=
  if m.any (fun p => p.1 == k) then
    m.map (fun p => if p.1 == k then (k, v) else p)
  else m ++ [(k, v)]

/-- The Company-type entry (index.js lines 352-370 and 986-1003): the
display label from `companyTypeLabels` (JS coerces the lookup key to a
string), falling back to the raw value. -/
def addCompanyType (d : AffiliateRequest) (m : List (String × String))
    (cf : List (String × JVal)) : List (String × JVal) :=
  if d.company_type.truthy then
    match flookup m "company type" with
    | some k =>
        let label :=
          match companyTypeLabels.find? (fun p => p.1 == d.company_type.jsToString) with
          | some p => JVal.vStr p.2
          | none => d.company_type
        setKeyJ cf k label
    | none => cf
  else cf

/-- The Commission-type entry (identical block in all four modes). -/
def addCommissionType (ct : JVal) (m : List (String × String))
    (cf : List (String × JVal)) : List (String × JVal) :=
  if ct.truthy then
    match flookup m "commission type" with
    | some k => setKeyJ cf k (.vStr (commissionTypeValue ct))
    | none => cf
  else cf

/-- The Free-DEMO-call entry: added when `wantsDemoCall` is neither
`undefined` nor `null` and a demo key resolves. -/
def addDemoCall (d : AffiliateRequest) (m : List (String × String))
    (cf : List (String × JVal)) : List (String × JVal) :=
  if d.wantsDemoCall ≠ .vUndefined && d.wantsDemoCall ≠ .vNull then
    match demoCallKey m with
    | some k => setKeyJ cf k (if d.wantsDemoCall.truthy then .vStr "Yes" else .vStr "No")
    | none => cf
  else cf

/-- The `customFields` object of the create-only mode (index.js lines
349-402) and, verbatim, of the legacy mode (lines 982-1035): company type,
then commission type, then demo call. -/
def stageACustomFields (d : AffiliateRequest) (m : List (String × String)) :
    List (String × JVal) :=
  addDemoCall d m (addCommissionType d.commission_type m (addCompanyType d m []))

/-- The `customFields` object of the finalize mode (index.js lines 570-596):
commission type, then demo call (no company type). -/
def finalizeCustomFields (d : AffiliateRequest) (m : List (String × String)) :
    List (String × JVal) :=
  addDemoCall d m (addCommissionType d.commission_type m [])

/-- The `customFields` object of the update-custom-fields mode (index.js
lines 820-856): only the commission type. -/
def stageCCustomFields (d : AffiliateRequest) (m : List (String × String)) :
    List (String × JVal) :=
  addCommissionType d.commission_type m []

/-! ### The four mode orchestrations -/

/-- The generic retry message used for HTML error pages and unparseable
creation errors. -/
def genericRetryMsg : String :=
  "Something went wrong while creating your affiliate account. Please try again later."

/-- The creation payload as POSTed by the create-only and legacy modes:
the `buildTapfiliatePayload` result, extended with the `custom_fields`
object when the catalog fetch succeeded and the object is non-empty. -/
def creationPayload (d : AffiliateRequest) (catalog : Option (List RawField))
    (payload0 : List (String × PVal)) : List (String × PVal) :=
  match catalog with
  | some fields =>
      if stageACustomFields d (buildFieldMap fields) ≠ [] then
        payload0 ++
          [("custom_fields", PVal.customObj (stageACustomFields d (buildFieldMap fields)))]
      else payload0
  | none => payload0

/-- `mode === 'create_affiliate_only'` (index.js lines 326-534): validate
the four required fields, build the creation payload, fetch the field
catalog, POST the creation, then best-effort parent link on success. -/
def modeA (v : Vendor) (d : AffiliateRequest) :
    Except String (Resp × List Call) :=
  let missing := requiredFieldsStageA.filter (fun f => isMissing (d.get f))
  if missing ≠ [] then
    .ok (⟨400, .errOnly ("Missing required fields: " ++ String.intercalate ", " missing)⟩, [])
  else
    match buildTapfiliatePayload d with
    | .error msg => .error msg
    | .ok payload0 =>
      let payload := creationPayload d v.catalog payload0
      let createCall : Call := ⟨"POST", .affiliates, .createPayload payload⟩
      if !v.createResp.ok then
        if v.createResp.htmlContentType then
          .ok (⟨500, .errWithStatus genericRetryMsg v.createResp.status⟩,
            [catalogCall, createCall])
        else
          .ok (⟨v.createResp.status,
            .errWithStatus (vendorErrorMessage v.createErr) v.createResp.status⟩,
            [catalogCall, createCall])
      else if !v.createId.truthy then
        .ok (⟨500, .errOnly "Invalid response from Tapfiliate API"⟩, [catalogCall, createCall])
      else
        match validateParentId d.parent_id with
        | some pid =>
            .ok (⟨200, .createOnlySuccess v.createId⟩,
              [catalogCall, createCall, ⟨"POST", .parentOf v.createId, .parentVia pid⟩])
        | none =>
            .ok (⟨200, .createOnlySuccess v.createId⟩, [catalogCall, createCall])

/-- The finalize PATCH body (index.js lines 610-632): the supplied address,
the supplied company with the derived description added (or a synthesized
`{ name: 'n/a' }` company when only a description exists), and the
custom-fields object when non-empty. -/
def finalizeUpdateBody (d : AffiliateRequest) (cf : List (String × JVal)) : UpdateBody :=
  { address := if d.address.truthy then some d.address else none
    company :=
      if d.company.truthy then
        some (.fromInput d.company (companyDescriptionFor d.company_type d.company_description))
      else
        match companyDescriptionFor d.company_type d.company_description with
        | some dv => some (.synthesized dv)
        | none => none
    custom_fields := if cf ≠ [] then some cf else none }

/-- `Object.keys(updatePayload).length > 0`. -/
def UpdateBody.nonempty (u : UpdateBody) : Bool :=
  u.address.isSome || u.company.isSome || u.custom_fields.isSome

/-- `mode === 'finalize_affiliate'` (index.js lines 542-792): require a
truthy `affiliate_id` and a resolvable program; best-effort PATCH of
profile data and PUT of website metadata; hard-failing enrollment; then
best-effort parent link. -/
def modeB (v : Vendor) (d : AffiliateRequest) :
    Except String (Resp × List Call) :=
  if !d.affiliate_id.truthy then
    .ok (⟨400, .errOnly "Missing affiliate_id for finalize_affiliate mode"⟩, [])
  else
    let mappedProgram := programLookup d.program
    if !mappedProgram.truthy then
      .ok (⟨400, .errOnly "Missing or invalid program selection"⟩, [])
    else
      let cf :=
        match v.catalog with
        | some fields => finalizeCustomFields d (buildFieldMap fields)
        | none => []
      let upd := finalizeUpdateBody d cf
      let patchCalls :=
        if upd.nonempty then
          [(⟨"PATCH", .affiliateId d.affiliate_id, .updatePayload upd⟩ : Call)]
        else []
      let metaCalls :=
        if d.metadataWebsite.truthy then
          [(⟨"PUT", .metaWebsite d.affiliate_id, .metaValue d.metadataWebsite⟩ : Call)]
        else []
      let enrollCall : Call :=
        ⟨"POST", .programAffiliates mappedProgram, .enrollAffiliate d.affiliate_id⟩
      let calls := catalogCall :: patchCalls ++ metaCalls ++ [enrollCall]
      if !v.enrollResp.ok then
        if v.enrollResp.htmlContentType then
          .ok (⟨500, .errWithStatus genericRetryMsg v.enrollResp.status⟩, calls)
        else
          .ok (⟨if v.enrollResp.status == 0 then 500 else v.enrollResp.status,
            .errWithStatus "Affiliate created but failed to enroll in program."
              v.enrollResp.status⟩, calls)
      else
        match validateParentId d.parent_id with
        | some pid =>
            .ok (⟨200, .finalizeSuccess d.affiliate_id⟩,
              calls ++ [⟨"POST", .parentOf d.affiliate_id, .parentVia pid⟩])
        | none =>
            .ok (⟨200, .finalizeSuccess d.affiliate_id⟩, calls)

/-- `mode === 'update_custom_fields'` (index.js lines 800-935): require a
truthy `affiliate_id`; resolve only the commission field; PATCH only when
there is something to send, surfacing the vendor's status on failure;
otherwise acknowledge with no further call. -/
def modeC (v : Vendor) (d : AffiliateRequest) :
    Except String (Resp × List Call) :=
  if !d.affiliate_id.truthy then
    .ok (⟨400, .errOnly "Missing affiliate_id for update_custom_fields mode"⟩, [])
  else
    let cf :=
      match v.catalog with
      | some fields => stageCCustomFields d (buildFieldMap fields)
      | none => []
    if cf ≠ [] then
      let patchCall : Call :=
        ⟨"PATCH", .affiliateId d.affiliate_id,
          .updatePayload ⟨none, none, some cf⟩⟩
      if !v.patchOk then
        .ok (⟨v.patchStatus,
          .errWithStatus "Failed to update commission type" v.patchStatus⟩,
          [catalogCall, patchCall])
      else
        .ok (⟨200, .updateSuccess d.affiliate_id⟩, [catalogCall, patchCall])
    else
      .ok (⟨200, .updateNoop d.affiliate_id "No custom fields to update"⟩, [catalogCall])

/-- The legacy/default mode (index.js lines 942-1263): program resolution,
full-field validation, creation, best-effort website metadata, hard-failing
enrollment, best-effort parent link. -/
def legacyMode (v : Vendor) (d : AffiliateRequest) :
    Except String (Resp × List Call) :=
  let mappedProgram := programLookup d.program
  if !mappedProgram.truthy then
    .ok (⟨400, .errOnly "Missing or invalid program selection"⟩, [])
  else
    let missing := requiredFieldsLegacy.filter (fun f => isMissing (d.get f))
    if missing ≠ [] then
      .ok (⟨400, .errOnly ("Missing required fields: " ++ String.intercalate ", " missing)⟩, [])
    else
      match buildTapfiliatePayload d with
      | .error msg => .error msg
      | .ok payload0 =>
        let payload := creationPayload d v.catalog payload0
        let createCall : Call := ⟨"POST", .affiliates, .createPayload payload⟩
        if !v.createResp.ok then
          if v.createResp.htmlContentType then
            .ok (⟨500, .errWithStatus genericRetryMsg v.createResp.status⟩,
              [catalogCall, createCall])
          else
            .ok (⟨v.createResp.status,
              .errWithStatus (vendorErrorMessage v.createErr) v.createResp.status⟩,
              [catalogCall, createCall])
        else if !v.createId.truthy then
          .ok (⟨500, .errOnly "Invalid response from Tapfiliate API"⟩, [catalogCall, createCall])
        else
          let metaCalls :=
            if d.metadataWebsite.truthy then
              [(⟨"PUT", .metaWebsite v.createId, .metaValue d.metadataWebsite⟩ : Call)]
            else []
          let enrollCall : Call :=
            ⟨"POST", .programAffiliates mappedProgram, .enrollAffiliate v.createId⟩
          let calls := catalogCall :: createCall :: metaCalls ++ [enrollCall]
          if !v.enrollResp.ok then
            if v.enrollResp.htmlContentType then
              .ok (⟨500, .errWithStatus genericRetryMsg v.enrollResp.status⟩, calls)
            else
              .ok (⟨if v.enrollResp.status == 0 then 500 else v.enrollResp.status,
                .errWithStatus "Affiliate created but failed to enroll in program."
                  v.enrollResp.status⟩, calls)
          else
            match validateParentId d.parent_id with
            | some pid =>
                .ok (⟨200, .legacySuccess v.createId⟩,
                  calls ++ [⟨"POST", .parentOf v.createId, .parentVia pid⟩])
            | none =>
                .ok (⟨200, .legacySuccess v.createId⟩, calls)

/-! ### The top-level handler -/

/-- The process environment as the handler reads it. -/
structure Env where
  tapfiliateApiKey : Option String
deriving DecidableEq, Repr

/-- `!TAPFILIATE_API_KEY`: absent or empty is falsy. -/
def Env.keyTruthy (e : Env) : Bool :=
  match e.tapfiliateApiKey with
  | some s => s ≠ ""
  | none => false

/-- The inbound body: either JSON that fails to parse (`JSON.parse` throws,
caught by the top-level catch) or a parsed `AffiliateRequest`. -/
inductive ReqBody where
  | malformed (parseErrMsg : String)
  | parsed (d : AffiliateRequest)
deriving DecidableEq, Repr

/-- One HTTP-shaped inbound event. -/
structure Request where
  httpMethod : String
  body : ReqBody
deriving DecidableEq, Repr

/-- The body of the handler's `try` block: credential check, body parse,
mode dispatch. -/
def dispatch (env : Env) (v : Vendor) (b : ReqBody) :
    Except String (Resp × List Call) :=
  if !env.keyTruthy then
    .ok (⟨500, .errOnly "Server configuration error: API key not set."⟩, [])
  else
    match b with
    | .malformed msg => .error msg
    | .parsed d =>
      if d.mode == .vStr "create_affiliate_only" then modeA v d
      else if d.mode == .vStr "finalize_affiliate" then modeB v d
      else if d.mode == .vStr "update_custom_fields" then modeC v d
      else legacyMode v d

/-- `exports.handler` (index.js lines 263-1281): the 405 guard runs first,
making the preflight branch that follows it unreachable; the `try` body is
wrapped by the catch-all that converts any thrown error into a generic 500.
All reachable throw sites precede the first outbound call, so the catch-all
returns an empty trace. -/
def handler (env : Env) (v : Vendor) (req : Request) : Resp × List Call :=
  if req.httpMethod ≠ "POST" then
    (⟨405, .errOnly "Method not allowed"⟩, [])
  else if req.httpMethod == "OPTIONS" then
    (⟨200, .empty⟩, [])
  else
    match dispatch env v req.body with
    | .ok r => r
    | .error msg => (⟨500, .internalErr "Internal server error" msg⟩, [])

/-! ### Concrete fixtures shared by the closed theorems -/

/-- A plain 200 vendor reply. -/
def okHttp : HttpResp := ⟨true, 200, false⟩

/-- A vendor for which every call succeeds (empty field catalog). -/
def vendorAllOk : Vendor :=
  ⟨some [], okHttp, .notJson, .vStr "A1", true, 200, true, okHttp, true⟩

/-- An environment carrying the credential. -/
def envOk : Env := ⟨some "test-key"⟩

/-- A legacy-mode request with every required field present. -/
def legacyBase : AffiliateRequest :=
  { first_name := .vStr "Ada", last_name := .vStr "Lovelace",
    email := .vStr "ada@example.com", password := .vStr "pw",
    city := .vStr "London", country := .vStr "United Kingdom",
    company := .vStr "Acme", program := .vStr "GBP" }

/-! ## Claims -/

/-- **C1.** The claim says an OPTIONS request is answered 200 with an empty
body.  In the source the `httpMethod !== 'POST'` guard runs first, so the
preflight branch is unreachable: an OPTIONS request gets the fixed 405
method-not-allowed response (and no vendor call), contradicting both the
spec and the source's own preflight branch and `POST, OPTIONS` CORS
advertisement. -/
theorem c1_options_preflight_actually_gets_405 (env : Env) (v : Vendor) (b : ReqBody) :
    handler env v ⟨"OPTIONS", b⟩ = (⟨405, .errOnly "Method not allowed"⟩, []) := rfl

/-- **C2.** For every POST request, in every mode (and even for an
unparseable body), an absent `TAPFILIATE_API_KEY` yields the fixed 500
server-configuration response and zero outbound vendor calls: the
credential check precedes the body parse and every vendor call. -/
theorem c2_missing_api_key_short_circuits (v : Vendor) (b : ReqBody) :
    handler ⟨none⟩ v ⟨"POST", b⟩ =
      (⟨500, .errOnly "Server configuration error: API key not set."⟩, []) := rfl

/-- **C5 counterexample.** The claim says country input `"uk"` resolves to
`"GB"`; the source's 2-letter passthrough runs before the lookup table, so
`"uk"` resolves to `"UK"`. -/
theorem c5_counterexample_uk_resolves_to_UK :
    getCountryISOCode (.vStr "uk") = .ok "UK" ∧ "UK" ≠ "GB" := by
  exact ⟨rfl, by decide⟩

/-- **C5 (amended).** `"United Kingdom"` and `"gb"` resolve to `"GB"`, and
any unrecognized country string that is not exactly 2 characters long also
resolves to `"GB"`; a 2-character input passes through uppercased, so
`"uk"` resolves to `"UK"`, not `"GB"`. -/
theorem c5_amended_country_resolution :
    getCountryISOCode (.vStr "United Kingdom") = .ok "GB" ∧
    getCountryISOCode (.vStr "gb") = .ok "GB" ∧
    getCountryISOCode (.vStr "uk") = .ok "UK" ∧
    (∀ s : String, s.length ≠ 2 →
      countryMap.find? (fun p => jsLower p.1 == jsLower (jsTrim s)) = none →
      getCountryISOCode (.vStr s) = .ok "GB") := by
  refine ⟨rfl, rfl, rfl, ?_⟩
  intro s h1 h2
  by_cases hs : s = ""
  · subst hs; rfl
  · have hlen : (s.length == 2) = false := beq_eq_false_iff_ne.mpr h1
    simp [getCountryISOCode, JVal.truthy, hs, hlen, h2]

/-- **C5 amended witness**: the unrecognized string `"Wakanda"` resolves to
`"GB"`. -/
theorem c5_amended_country_resolution_witness :
    getCountryISOCode (.vStr "Wakanda") = .ok "GB" :=
  c5_amended_country_resolution.2.2.2 "Wakanda" (by decide) rfl

/-- **C10.** `validateParentId` stringifies non-string inputs before
validation: a JSON number `42` validates to `"42"`, and a legacy-mode
request carrying `parent_id: 42` triggers the parent-link call. -/
theorem c10_numeric_parent_id_is_coerced_and_triggers_link :
    validateParentId (.vNum 42) = some "42" ∧
    (⟨"POST", .parentOf (.vStr "A1"), .parentVia "42"⟩ : Call) ∈
      (handler envOk vendorAllOk
        ⟨"POST", .parsed { legacyBase with parent_id := .vNum 42 }⟩).2 := by
  constructor
  · decide
  · decide

/-! ### Object-assignment lemmas -/

/-- Assigning `(k, v)` always leaves the entry `(k, v)` in the object. -/
theorem mem_setKeyJ_self (m : List (String × JVal)) (k : String) (v : JVal) :
    (k, v) ∈ setKeyJ m k v := by
  unfold setKeyJ
  split
  · next h =>
      rcases List.any_eq_true.mp h with ⟨p, hp, hpk⟩
      exact List.mem_map.mpr ⟨p, hp, by simp [hpk]⟩
  · exact List.mem_append_right _ (List.mem_singleton.mpr rfl)

/-- Assigning under a different key preserves the entry `(k, v)`. -/
theorem mem_setKeyJ_other {m : List (String × JVal)} {k : String} {v : JVal}
    (k' : String) (v' : JVal) (hne : k' ≠ k) (hm : (k, v) ∈ m) :
    (k, v) ∈ setKeyJ m k' v' := by
  unfold setKeyJ
  split
  · refine List.mem_map.mpr ⟨(k, v), hm, ?_⟩
    have : (k == k') = false := beq_eq_false_iff_ne.mpr (fun h => hne h.symm)
    simp [this]
  · exact List.mem_append_left _ hm

/-- A truthy commission value whose field key resolves always places the
normalized value under that key. -/
theorem mem_addCommissionType (ct : JVal) (m : List (String × String))
    (cf : List (String × JVal)) (k : String)
    (h1 : ct.truthy = true) (h2 : flookup m "commission type" = some k) :
    (k, JVal.vStr (commissionTypeValue ct)) ∈ addCommissionType ct m cf := by
  unfold addCommissionType
  rw [h1, h2]
  simpa using mem_setKeyJ_self cf k (.vStr (commissionTypeValue ct))

/-- The demo-call assignment preserves entries under other keys. -/
theorem mem_addDemoCall_of {d : AffiliateRequest} {m : List (String × String)}
    {cf : List (String × JVal)} {k : String} {v : JVal}
    (hk : demoCallKey m ≠ some k) (hm : (k, v) ∈ cf) :
    (k, v) ∈ addDemoCall d m cf := by
  unfold addDemoCall
  split
  · cases hdk : demoCallKey m with
    | none => exact hm
    | some k' =>
        have : k' ≠ k := by
          intro h
          exact hk (by rw [hdk, h])
        exact mem_setKeyJ_other k' _ this hm
  · exact hm

/-- **C6.** Every commission value the handler can send is one of the three
canonical strings, with `"bogus"` rewritten to `"I want 10% commission"`;
and in each of the three custom-field builders (create-only/legacy,
finalize, update-custom-fields), a truthy `commission_type` whose vendor
key resolves (and is not aliased by the demo-call key) is stored as exactly
the normalized value. -/
theorem c6_commission_type_constrained :
    (∀ v : JVal, commissionTypeValue v ∈ validCommissionTypes) ∧
    commissionTypeValue (.vStr "bogus") = "I want 10% commission" ∧
    (∀ (d : AffiliateRequest) (m : List (String × String)) (k : String),
      d.commission_type.truthy = true →
      flookup m "commission type" = some k →
      demoCallKey m ≠ some k →
      ((k, JVal.vStr (commissionTypeValue d.commission_type)) ∈ stageACustomFields d m ∧
       (k, JVal.vStr (commissionTypeValue d.commission_type)) ∈ finalizeCustomFields d m ∧
       stageCCustomFields d m = [(k, .vStr (commissionTypeValue d.commission_type))])) := by
  refine ⟨?_, by decide, ?_⟩
  · intro v
    cases v with
    | vStr s =>
        simp only [commissionTypeValue]
        split
        · assumption
        · simp [validCommissionTypes]
    | vUndefined => simp [commissionTypeValue, validCommissionTypes]
    | vNull => simp [commissionTypeValue, validCommissionTypes]
    | vNum n => simp [commissionTypeValue, validCommissionTypes]
    | vBool b => simp [commissionTypeValue, validCommissionTypes]
  · intro d m k h1 h2 h3
    refine ⟨?_, ?_, ?_⟩
    · exact mem_addDemoCall_of h3 (mem_addCommissionType _ m _ k h1 h2)
    · exact mem_addDemoCall_of h3 (mem_addCommissionType _ m _ k h1 h2)
    · unfold stageCCustomFields addCommissionType
      rw [h1, h2]
      simp [setKeyJ]

/-- **C6 witness**: with a catalog resolving `Commission type` to key `F1`
and the demo field to `F2`, the value `"bogus"` is stored under `F1` as
`"I want 10% commission"` in all three builders. -/
theorem c6_commission_type_constrained_witness :
    commissionTypeValue (.vStr "bogus") ∈ validCommissionTypes ∧
    (("F1", JVal.vStr "I want 10% commission") ∈
      stageACustomFields { commission_type := .vStr "bogus" }
        [("commission type", "F1"), ("free demo call?", "F2")] ∧
     ("F1", JVal.vStr "I want 10% commission") ∈
      finalizeCustomFields { commission_type := .vStr "bogus" }
        [("commission type", "F1"), ("free demo call?", "F2")] ∧
     stageCCustomFields { commission_type := .vStr "bogus" }
        [("commission type", "F1"), ("free demo call?", "F2")] =
      [("F1", .vStr "I want 10% commission")]) := by
  constructor
  · exact c6_commission_type_constrained.1 (.vStr "bogus")
  · have h := c6_commission_type_constrained.2.2
      { commission_type := .vStr "bogus" }
      [("commission type", "F1"), ("free demo call?", "F2")] "F1"
      (by decide) (by decide) (by decide)
    simpa using h

/-- **C8 counterexample.** The claim says the no-op path of
`update_custom_fields` performs **no** vendor call; but the field-catalog
GET (`getCustomFieldKeys`) is issued unconditionally before the
custom-fields object is examined, so the trace is `[GET custom-fields]`,
not `[]`. -/
theorem c8_counterexample_catalog_fetch_still_occurs :
    handler envOk vendorAllOk
        ⟨"POST", .parsed { mode := .vStr "update_custom_fields",
                           affiliate_id := .vStr "AFF1" }⟩ =
      (⟨200, .updateNoop (.vStr "AFF1") "No custom fields to update"⟩, [catalogCall]) ∧
    [catalogCall] ≠ ([] : List Call) := by
  exact ⟨by decide, by decide⟩

/-- **C8 (amended).** In `update_custom_fields` mode, when the
commission-type field cannot be resolved from the catalog or no
`commission_type` value was supplied, the handler returns 200 with the
explanatory message and issues zero vendor **PATCH** calls — the only
vendor call is the unconditional field-catalog GET. -/
theorem c8_amended_update_noop_only_catalog_get
    (d : AffiliateRequest) (v : Vendor) (k : String)
    (hk : k ≠ "")
    (hmode : d.mode = .vStr "update_custom_fields")
    (hid : d.affiliate_id.truthy = true)
    (hempty : d.commission_type.truthy = false ∨ v.catalog = none ∨
      (∀ fields, v.catalog = some fields →
        flookup (buildFieldMap fields) "commission type" = none)) :
    handler ⟨some k⟩ v ⟨"POST", .parsed d⟩ =
      (⟨200, .updateNoop d.affiliate_id "No custom fields to update"⟩, [catalogCall]) := by
  have hcf : (match v.catalog with
      | some fields => stageCCustomFields d (buildFieldMap fields)
      | none => []) = [] := by
    cases hcat : v.catalog with
    | none => rfl
    | some fields =>
        rcases hempty with h | h | h
        · simp [stageCCustomFields, addCommissionType, h]
        · rw [hcat] at h; exact absurd h (by simp)
        · simp [stageCCustomFields, addCommissionType, h fields hcat]
  simp [handler, dispatch, Env.keyTruthy, hk, hmode, modeC, hid, hcf]

/-- **C8 amended witness**: a request with no `commission_type` supplied
yields the 200 no-op acknowledgement with only the catalog GET issued. -/
theorem c8_amended_update_noop_only_catalog_get_witness :
    handler ⟨some "test-key"⟩ vendorAllOk
        ⟨"POST", .parsed { mode := .vStr "update_custom_fields",
                           affiliate_id := .vStr "AFF2" }⟩ =
      (⟨200, .updateNoop (.vStr "AFF2") "No custom fields to update"⟩, [catalogCall]) :=
  c8_amended_update_noop_only_catalog_get
    { mode := .vStr "update_custom_fields", affiliate_id := .vStr "AFF2" }
    vendorAllOk "test-key" (by decide) rfl (by decide) (Or.inl (by decide))

/-! ### Dispatch lemmas -/

/-- A POST with the credential present dispatches on `mode`:
create-only case. -/
theorem handler_modeA (v : Vendor) (d : AffiliateRequest) (k : String)
    (hk : k ≠ "") (h1 : d.mode = .vStr "create_affiliate_only") :
    handler ⟨some k⟩ v ⟨"POST", .parsed d⟩ =
      match modeA v d with
      | .ok r => r
      | .error msg => (⟨500, .internalErr "Internal server error" msg⟩, []) := by
  simp [handler, dispatch, Env.keyTruthy, hk, h1]

/-- Dispatch lemma: finalize case. -/
theorem handler_modeB (v : Vendor) (d : AffiliateRequest) (k : String)
    (hk : k ≠ "") (h1 : d.mode = .vStr "finalize_affiliate") :
    handler ⟨some k⟩ v ⟨"POST", .parsed d⟩ =
      match modeB v d with
      | .ok r => r
      | .error msg => (⟨500, .internalErr "Internal server error" msg⟩, []) := by
  simp [handler, dispatch, Env.keyTruthy, hk, h1]

/-- Dispatch lemma: update-custom-fields case. -/
theorem handler_modeC (v : Vendor) (d : AffiliateRequest) (k : String)
    (hk : k ≠ "") (h1 : d.mode = .vStr "update_custom_fields") :
    handler ⟨some k⟩ v ⟨"POST", .parsed d⟩ =
      match modeC v d with
      | .ok r => r
      | .error msg => (⟨500, .internalErr "Internal server error" msg⟩, []) := by
  simp [handler, dispatch, Env.keyTruthy, hk, h1]

/-- Dispatch lemma: legacy/default case. -/
theorem handler_legacy (v : Vendor) (d : AffiliateRequest) (k : String)
    (hk : k ≠ "")
    (h1 : (d.mode == JVal.vStr "create_affiliate_only") = false)
    (h2 : (d.mode == JVal.vStr "finalize_affiliate") = false)
    (h3 : (d.mode == JVal.vStr "update_custom_fields") = false) :
    handler ⟨some k⟩ v ⟨"POST", .parsed d⟩ =
      match legacyMode v d with
      | .ok r => r
      | .error msg => (⟨500, .internalErr "Internal server error" msg⟩, []) := by
  simp [handler, dispatch, Env.keyTruthy, hk, h1, h2, h3]

/-- **C9.** `validateParentId` accepts exactly the trimmed, non-`"null"`,
non-empty decimal-digit strings (`"abc"`, `""`, `"null"`, absent are
rejected; `"42"` accepted); and on the legacy success path the parent-link
call is issued if and only if the supplied `parent_id` validates, with the
response a 200 success either way (a rejected `parent_id` never causes an
error response). -/
theorem c9_parent_id_gates_parent_link_call :
    (validateParentId (.vStr "abc") = none ∧ validateParentId (.vStr "") = none ∧
     validateParentId (.vStr "null") = none ∧ validateParentId .vUndefined = none ∧
     validateParentId (.vStr "42") = some "42") ∧
    (∀ s : String, (validateParentId (.vStr s)).isSome =
        (jsTrim s ≠ "null" && digitsOnly (jsTrim s))) ∧
    (∀ (d : AffiliateRequest) (v : Vendor) (k : String) (p : List (String × PVal)),
      k ≠ "" →
      (d.mode == JVal.vStr "create_affiliate_only") = false →
      (d.mode == JVal.vStr "finalize_affiliate") = false →
      (d.mode == JVal.vStr "update_custom_fields") = false →
      (programLookup d.program).truthy = true →
      requiredFieldsLegacy.filter (fun f => isMissing (d.get f)) = [] →
      buildTapfiliatePayload d = .ok p →
      v.createResp.ok = true →
      v.createId.truthy = true →
      v.enrollResp.ok = true →
      (((∃ via, (⟨"POST", .parentOf v.createId, .parentVia via⟩ : Call) ∈
          (handler ⟨some k⟩ v ⟨"POST", .parsed d⟩).2) ↔
        validateParentId d.parent_id ≠ none) ∧
       (handler ⟨some k⟩ v ⟨"POST", .parsed d⟩).1.statusCode = 200)) := by
  refine ⟨by refine ⟨by decide, by decide, by decide, by decide, by decide⟩, ?_, ?_⟩
  · intro s
    by_cases hs : s = ""
    · subst hs; decide
    · simp only [validateParentId, JVal.truthy, ne_eq, hs, not_false_eq_true,
        decide_True, Bool.not_true]
      by_cases h0 : jsTrim s = ""
      · simp [h0, digitsOnly]
      · by_cases hn : jsTrim s = "null"
        · simp [h0, hn]
        · by_cases hd : digitsOnly (jsTrim s) = true
          · simp [h0, hn, hd]
          · simp [h0, hn, Bool.not_eq_true _ ▸ hd, hd]
  · intro d v k p hk h1 h2 h3 hprog hmiss hbuild hok hid henroll
    rw [handler_legacy v d k hk h1 h2 h3]
    unfold legacyMode
    rw [hbuild]
    simp only [hprog, hmiss, hbuild, hok, hid, henroll, Bool.not_true,
      Bool.false_eq_true, if_false, ne_eq, not_true_eq_false, not_false_eq_true]
    cases hpid : validateParentId d.parent_id with
    | some pid =>
        by_cases hmeta : d.metadataWebsite.truthy = true <;>
          simp [hmeta, catalogCall, Call.mk.injEq, hpid]
    | none =>
        by_cases hmeta : d.metadataWebsite.truthy = true <;>
          simp [hmeta, catalogCall, Call.mk.injEq, hpid]

/-- The creation payload that `legacyBase` builds. -/
def legacyBasePayload : List (String × PVal) :=
  [("firstname", .scalar (.vStr "Ada")),
   ("lastname", .scalar (.vStr "Lovelace")),
   ("email", .scalar (.vStr "ada@example.com")),
   ("password", .scalar (.vStr "pw")),
   ("address", .addrObj (.vStr "London") "GB"),
   ("company", .compObj (.vStr "Acme"))]

/-- **C9 witness**: on a concrete all-success legacy run with
`parent_id = "42"`, the parent-link call is issued iff `"42"` validates,
and the response is 200. -/
theorem c9_parent_id_gates_parent_link_call_witness :
    ((∃ via, (⟨"POST", .parentOf (.vStr "A1"), .parentVia via⟩ : Call) ∈
        (handler ⟨some "test-key"⟩ vendorAllOk
          ⟨"POST", .parsed { legacyBase with parent_id := .vStr "42" }⟩).2) ↔
      validateParentId (.vStr "42") ≠ none) ∧
    (handler ⟨some "test-key"⟩ vendorAllOk
        ⟨"POST", .parsed { legacyBase with parent_id := .vStr "42" }⟩).1.statusCode = 200 :=
  c9_parent_id_gates_parent_link_call.2.2
    { legacyBase with parent_id := .vStr "42" } vendorAllOk "test-key"
    legacyBasePayload (by decide) (by decide) (by decide) (by decide)
    (by decide) (by decide) rfl rfl rfl rfl

/-- **C3 counterexample.** The claim covers all four modes and counts a
whitespace-only value (empty after trimming) as missing.  In
`finalize_affiliate` mode the source only tests `!affiliate_id`, so the
whitespace-only `affiliate_id = "   "` — missing by the claim's own
definition — is *not* rejected: the handler returns 200 and issues vendor
calls instead of a 400 with zero calls. -/
theorem c3_counterexample_whitespace_affiliate_id :
    isMissing (.vStr "   ") = true ∧
    (handler envOk vendorAllOk
        ⟨"POST", .parsed { mode := .vStr "finalize_affiliate",
                           affiliate_id := .vStr "   ",
                           program := .vStr "GBP" }⟩).1.statusCode = 200 ∧
    (handler envOk vendorAllOk
        ⟨"POST", .parsed { mode := .vStr "finalize_affiliate",
                           affiliate_id := .vStr "   ",
                           program := .vStr "GBP" }⟩).2 ≠ [] := by
  exact ⟨by decide, by decide, by decide⟩

/-- **C3 (amended).** In `create_affiliate_only` mode a payload missing
required fields (undefined, null, or empty after trimming) returns 400
listing exactly the missing names with zero vendor calls.  In legacy mode
the program gate runs first: a falsy unresolvable program returns the
fixed 400 "Missing or invalid program selection" with zero vendor calls
before any field validation, and once the program resolves, a payload
missing required fields returns 400 listing exactly the missing names
with zero vendor calls.  In `finalize_affiliate` and
`update_custom_fields` modes only a falsy `affiliate_id` (undefined,
null, or the empty string — not a whitespace-only one) is rejected, with
a fixed message and zero vendor calls, and in `finalize_affiliate` an
unresolvable falsy program is likewise rejected with a fixed message and
zero vendor calls. -/
theorem c3_amended_missing_field_validation :
    (∀ (d : AffiliateRequest) (v : Vendor) (k : String), k ≠ "" →
      d.mode = .vStr "create_affiliate_only" →
      requiredFieldsStageA.filter (fun f => isMissing (d.get f)) ≠ [] →
      handler ⟨some k⟩ v ⟨"POST", .parsed d⟩ =
        (⟨400, .errOnly ("Missing required fields: " ++ String.intercalate ", "
          (requiredFieldsStageA.filter (fun f => isMissing (d.get f))))⟩, [])) ∧
    (∀ (d : AffiliateRequest) (v : Vendor) (k : String), k ≠ "" →
      (d.mode == JVal.vStr "create_affiliate_only") = false →
      (d.mode == JVal.vStr "finalize_affiliate") = false →
      (d.mode == JVal.vStr "update_custom_fields") = false →
      (programLookup d.program).truthy = false →
      handler ⟨some k⟩ v ⟨"POST", .parsed d⟩ =
        (⟨400, .errOnly "Missing or invalid program selection"⟩, [])) ∧
    (∀ (d : AffiliateRequest) (v : Vendor) (k : String), k ≠ "" →
      (d.mode == JVal.vStr "create_affiliate_only") = false →
      (d.mode == JVal.vStr "finalize_affiliate") = false →
      (d.mode == JVal.vStr "update_custom_fields") = false →
      (programLookup d.program).truthy = true →
      requiredFieldsLegacy.filter (fun f => isMissing (d.get f)) ≠ [] →
      handler ⟨some k⟩ v ⟨"POST", .parsed d⟩ =
        (⟨400, .errOnly ("Missing required fields: " ++ String.intercalate ", "
          (requiredFieldsLegacy.filter (fun f => isMissing (d.get f))))⟩, [])) ∧
    (∀ (d : AffiliateRequest) (v : Vendor) (k : String), k ≠ "" →
      d.mode = .vStr "finalize_affiliate" →
      d.affiliate_id.truthy = false →
      handler ⟨some k⟩ v ⟨"POST", .parsed d⟩ =
        (⟨400, .errOnly "Missing affiliate_id for finalize_affiliate mode"⟩, [])) ∧
    (∀ (d : AffiliateRequest) (v : Vendor) (k : String), k ≠ "" →
      d.mode = .vStr "finalize_affiliate" →
      d.affiliate_id.truthy = true →
      (programLookup d.program).truthy = false →
      handler ⟨some k⟩ v ⟨"POST", .parsed d⟩ =
        (⟨400, .errOnly "Missing or invalid program selection"⟩, [])) ∧
    (∀ (d : AffiliateRequest) (v : Vendor) (k : String), k ≠ "" →
      d.mode = .vStr "update_custom_fields" →
      d.affiliate_id.truthy = false →
      handler ⟨some k⟩ v ⟨"POST", .parsed d⟩ =
        (⟨400, .errOnly "Missing affiliate_id for update_custom_fields mode"⟩, [])) := by
  refine ⟨?_, ?_, ?_, ?_, ?_, ?_⟩
  · intro d v k hk hmode hmiss
    rw [handler_modeA v d k hk hmode]
    unfold modeA
    simp [hmiss]
  · intro d v k hk h1 h2 h3 hprog
    rw [handler_legacy v d k hk h1 h2 h3]
    unfold legacyMode
    simp [hprog]
  · intro d v k hk h1 h2 h3 hprog hmiss
    rw [handler_legacy v d k hk h1 h2 h3]
    unfold legacyMode
    simp [hprog, hmiss]
  · intro d v k hk hmode hid
    rw [handler_modeB v d k hk hmode]
    unfold modeB
    simp [hid]
  · intro d v k hk hmode hid hprog
    rw [handler_modeB v d k hk hmode]
    unfold modeB
    simp [hid, hprog]
  · intro d v k hk hmode hid
    rw [handler_modeC v d k hk hmode]
    unfold modeC
    simp [hid]

/-- **C3 amended witness**: concrete instances — a create-only request
missing `last_name` and `password` gets a 400 listing exactly those two;
a legacy request with no resolvable program gets the fixed program 400
before field validation; a finalize request with no `affiliate_id` gets
the fixed 400. -/
theorem c3_amended_missing_field_validation_witness :
    handler ⟨some "test-key"⟩ vendorAllOk
        ⟨"POST", .parsed { mode := .vStr "create_affiliate_only",
                           first_name := .vStr "Ada",
                           email := .vStr "ada@example.com" }⟩ =
      (⟨400, .errOnly "Missing required fields: last_name, password"⟩, []) ∧
    handler ⟨some "test-key"⟩ vendorAllOk
        ⟨"POST", .parsed { first_name := .vStr "Ada" }⟩ =
      (⟨400, .errOnly "Missing or invalid program selection"⟩, []) ∧
    handler ⟨some "test-key"⟩ vendorAllOk
        ⟨"POST", .parsed { mode := .vStr "finalize_affiliate" }⟩ =
      (⟨400, .errOnly "Missing affiliate_id for finalize_affiliate mode"⟩, []) := by
  refine ⟨?_, ?_, ?_⟩
  · have h := c3_amended_missing_field_validation.1
      { mode := .vStr "create_affiliate_only", first_name := .vStr "Ada",
        email := .vStr "ada@example.com" }
      vendorAllOk "test-key" (by decide) rfl (by decide)
    simpa using h
  · exact c3_amended_missing_field_validation.2.1
      { first_name := .vStr "Ada" }
      vendorAllOk "test-key" (by decide) (by decide) (by decide) (by decide) (by decide)
  · exact c3_amended_missing_field_validation.2.2.2.1
      { mode := .vStr "finalize_affiliate" }
      vendorAllOk "test-key" (by decide) rfl (by decide)

/-- A well-formed finalize-mode body. -/
def finalizeData : AffiliateRequest :=
  { mode := .vStr "finalize_affiliate", affiliate_id := .vStr "A1",
    program := .vStr "GBP" }

/-- A well-formed finalize-mode request. -/
def finalizeReq : Request := ⟨"POST", .parsed finalizeData⟩

/-- A well-formed create-only request. -/
def createOnlyReq : Request :=
  ⟨"POST", .parsed { mode := .vStr "create_affiliate_only",
                     first_name := .vStr "Ada", last_name := .vStr "Lovelace",
                     email := .vStr "ada@example.com", password := .vStr "pw" }⟩

/-- A vendor whose enrollment call fails with an HTML 404 error page. -/
def vendorEnrollHtmlFail : Vendor :=
  { vendorAllOk with enrollResp := ⟨false, 404, true⟩ }

/-- A vendor whose creation call fails with an HTML 404 error page. -/
def vendorCreateHtmlFail : Vendor :=
  { vendorAllOk with createResp := ⟨false, 404, true⟩ }

/-- **C7 counterexample.** The claim says *every* enrollment failure in
`finalize_affiliate` returns the vendor's status and a message
distinguishing "created but not enrolled" from total failure.  When the
enrollment failure is an HTML error page, the response is the generic
500/"Something went wrong…" — byte-identical (status code and message) to
a create-only *total* failure where no affiliate exists, and its status
code 500 is not the vendor's 404. -/
theorem c7_counterexample_html_enrollment_failure_indistinct :
    (handler envOk vendorEnrollHtmlFail finalizeReq).1 =
      ⟨500, .errWithStatus genericRetryMsg 404⟩ ∧
    (handler envOk vendorCreateHtmlFail createOnlyReq).1 =
      ⟨500, .errWithStatus genericRetryMsg 404⟩ ∧
    genericRetryMsg ≠ "Affiliate created but failed to enroll in program." ∧
    (500 : Nat) ≠ 404 := by
  exact ⟨by decide, by decide, by decide, by decide⟩

/-- **C7 (amended).** In `finalize_affiliate` mode a non-HTML enrollment
failure returns the vendor's status (500 when it is 0) with the
distinguishing "Affiliate created but failed to enroll in program."
message (an HTML error page instead yields the generic 500); and the
profile-patch, website-metadata and parent-link outcomes never influence
the mode's result — enrollment is the only hard-failing external call. -/
theorem c7_amended_enrollment_only_hard_failure :
    (∀ (d : AffiliateRequest) (v : Vendor) (k : String),
      k ≠ "" → d.mode = .vStr "finalize_affiliate" →
      d.affiliate_id.truthy = true →
      (programLookup d.program).truthy = true →
      v.enrollResp.ok = false →
      v.enrollResp.htmlContentType = false →
      (handler ⟨some k⟩ v ⟨"POST", .parsed d⟩).1 =
        ⟨if v.enrollResp.status == 0 then 500 else v.enrollResp.status,
         .errWithStatus "Affiliate created but failed to enroll in program."
           v.enrollResp.status⟩) ∧
    (∀ (v : Vendor) (d : AffiliateRequest) (p₁ p₂ m₁ m₂ q₁ q₂ : Bool) (s₁ s₂ : Nat),
      modeB { v with patchOk := p₁, patchStatus := s₁, metaOk := m₁, parentOk := q₁ } d =
        modeB { v with patchOk := p₂, patchStatus := s₂, metaOk := m₂, parentOk := q₂ } d) := by
  constructor
  · intro d v k hk hmode hid hprog hfail hhtml
    rw [handler_modeB v d k hk hmode]
    unfold modeB
    simp [hid, hprog, hfail, hhtml]
  · intro v d p₁ p₂ m₁ m₂ q₁ q₂ s₁ s₂
    cases v
    rfl

/-- **C7 amended witness**: a concrete JSON 422 enrollment failure returns
422 with the distinguishing message, and flipping every best-effort
outcome leaves the finalize result unchanged. -/
theorem c7_amended_enrollment_only_hard_failure_witness :
    (handler ⟨some "test-key"⟩ { vendorAllOk with enrollResp := ⟨false, 422, false⟩ }
        finalizeReq).1 =
      ⟨422, .errWithStatus "Affiliate created but failed to enroll in program." 422⟩ ∧
    modeB { vendorAllOk with patchOk := true, patchStatus := 200,
                             metaOk := true, parentOk := true } finalizeData =
      modeB { vendorAllOk with patchOk := false, patchStatus := 500,
                               metaOk := false, parentOk := false } finalizeData := by
  constructor
  · have h := c7_amended_enrollment_only_hard_failure.1 finalizeData
      { vendorAllOk with enrollResp := ⟨false, 422, false⟩ } "test-key"
      (by decide) rfl (by decide) (by decide) rfl rfl
    simpa [finalizeReq] using h
  · exact c7_amended_enrollment_only_hard_failure.2 vendorAllOk finalizeData
      true false true false true false 200 500

/-! ### Creation-payload key lemmas -/

/-- The payload `buildTapfiliatePayload` returns never carries a
`parent_id` key. -/
theorem parent_id_not_in_build (d : AffiliateRequest) (p : List (String × PVal))
    (h : buildTapfiliatePayload d = .ok p) : "parent_id" ∉ p.map Prod.fst := by
  simp only [buildTapfiliatePayload] at h
  split at h
  · simp at h
  · rw [Except.ok.injEq] at h
    subst h
    rcases hdc : companyDescriptionFor d.company_type d.company_description with _ | descr <;>
      simp [List.mem_map, List.mem_filter]

/-- Appending the `custom_fields` object cannot introduce a `parent_id`
key either. -/
theorem parent_id_not_in_creationPayload (d : AffiliateRequest)
    (cat : Option (List RawField)) (p0 : List (String × PVal))
    (h0 : "parent_id" ∉ p0.map Prod.fst) :
    "parent_id" ∉ (creationPayload d cat p0).map Prod.fst := by
  unfold creationPayload
  split
  · split
    · simp_all
    · exact h0
  · exact h0

/-- Every creation body POSTed by the create-only mode is free of
`parent_id`. -/
theorem modeA_create_bodies (v : Vendor) (d : AffiliateRequest)
    (r : Resp × List Call) (hd : modeA v d = .ok r)
    (c : Call) (p : List (String × PVal))
    (hc : c ∈ r.2) (hb : c.body = .createPayload p) :
    "parent_id" ∉ p.map Prod.fst := by
  obtain ⟨resp, calls⟩ := r
  simp only [modeA] at hd
  split at hd
  · rw [Except.ok.injEq, Prod.mk.injEq] at hd
    obtain ⟨h1, h2⟩ := hd; subst h2; simp at hc
  · split at hd
    · simp at hd
    · rename_i payload0 heq
      have hcp := parent_id_not_in_creationPayload d v.catalog payload0
        (parent_id_not_in_build d payload0 heq)
      split at hd <;> (try split at hd) <;> (try split at hd) <;>
        (rw [Except.ok.injEq, Prod.mk.injEq] at hd;
         obtain ⟨h1, h2⟩ := hd; subst h2) <;>
        fin_cases hc <;> simp_all [catalogCall]

/-- Every creation body POSTed by the legacy mode is free of
`parent_id`. -/
theorem legacyMode_create_bodies (v : Vendor) (d : AffiliateRequest)
    (r : Resp × List Call) (hd : legacyMode v d = .ok r)
    (c : Call) (p : List (String × PVal))
    (hc : c ∈ r.2) (hb : c.body = .createPayload p) :
    "parent_id" ∉ p.map Prod.fst := by
  obtain ⟨resp, calls⟩ := r
  simp only [legacyMode] at hd
  split at hd
  · rw [Except.ok.injEq, Prod.mk.injEq] at hd
    obtain ⟨h1, h2⟩ := hd; subst h2; simp at hc
  · split at hd
    · rw [Except.ok.injEq, Prod.mk.injEq] at hd
      obtain ⟨h1, h2⟩ := hd; subst h2; simp at hc
    · split at hd
      · simp at hd
      · rename_i payload0 heq
        have hcp := parent_id_not_in_creationPayload d v.catalog payload0
          (parent_id_not_in_build d payload0 heq)
        split at hd <;> (try split at hd) <;> (try split at hd) <;>
            (try split at hd) <;> (try split at hd) <;> (try split at hd) <;>
            (try split at hd) <;> (try split at hd) <;>
          (rw [Except.ok.injEq, Prod.mk.injEq] at hd;
           obtain ⟨h1, h2⟩ := hd; subst h2;
           simp only [List.nil_append, List.cons_append] at hc) <;>
          fin_cases hc <;> simp_all [catalogCall]

/-- The finalize mode never POSTs a creation body. -/
theorem modeB_no_create_body (v : Vendor) (d : AffiliateRequest)
    (r : Resp × List Call) (hd : modeB v d = .ok r)
    (c : Call) (p : List (String × PVal))
    (hc : c ∈ r.2) (hb : c.body = .createPayload p) : False := by
  obtain ⟨resp, calls⟩ := r
  simp only [modeB] at hd
  split at hd <;> (try split at hd) <;> (try split at hd) <;>
      (try split at hd) <;> (try split at hd) <;> (try split at hd) <;>
      (try split at hd) <;> (try split at hd) <;> (try split at hd) <;>
    (rw [Except.ok.injEq, Prod.mk.injEq] at hd;
     obtain ⟨h1, h2⟩ := hd; subst h2;
     simp only [List.nil_append, List.cons_append, List.append_nil] at hc) <;>
    fin_cases hc <;> simp_all [catalogCall]

/-- The update-custom-fields mode never POSTs a creation body. -/
theorem modeC_no_create_body (v : Vendor) (d : AffiliateRequest)
    (r : Resp × List Call) (hd : modeC v d = .ok r)
    (c : Call) (p : List (String × PVal))
    (hc : c ∈ r.2) (hb : c.body = .createPayload p) : False := by
  obtain ⟨resp, calls⟩ := r
  simp only [modeC] at hd
  split at hd <;> (try split at hd) <;> (try split at hd) <;>
      (try split at hd) <;>
    (rw [Except.ok.injEq, Prod.mk.injEq] at hd;
     obtain ⟨h1, h2⟩ := hd; subst h2) <;>
    fin_cases hc <;> simp_all [catalogCall]

/-- In create-only mode, a parent-link call in the trace implies the 200
success response. -/
theorem modeA_parent_implies_200 (v : Vendor) (d : AffiliateRequest)
    (r : Resp × List Call) (hd : modeA v d = .ok r) (id : JVal) (via : String)
    (hc : (⟨"POST", .parentOf id, .parentVia via⟩ : Call) ∈ r.2) :
    r.1.statusCode = 200 := by
  obtain ⟨resp, calls⟩ := r
  simp only [modeA] at hd
  split at hd <;> (try split at hd) <;> (try split at hd) <;>
      (try split at hd) <;> (try split at hd) <;>
    (first
      | (rw [Except.ok.injEq, Prod.mk.injEq] at hd;
         obtain ⟨h1, h2⟩ := hd; subst h2; subst h1; simp_all [catalogCall])
      | simp at hd)

/-- In finalize mode, a parent-link call in the trace implies the 200
success response. -/
theorem modeB_parent_implies_200 (v : Vendor) (d : AffiliateRequest)
    (r : Resp × List Call) (hd : modeB v d = .ok r) (id : JVal) (via : String)
    (hc : (⟨"POST", .parentOf id, .parentVia via⟩ : Call) ∈ r.2) :
    r.1.statusCode = 200 := by
  obtain ⟨resp, calls⟩ := r
  simp only [modeB] at hd
  split at hd <;> (try split at hd) <;> (try split at hd) <;>
      (try split at hd) <;> (try split at hd) <;> (try split at hd) <;>
      (try split at hd) <;> (try split at hd) <;>
    (first
      | (rw [Except.ok.injEq, Prod.mk.injEq] at hd;
         obtain ⟨h1, h2⟩ := hd; subst h2; subst h1; simp_all [catalogCall])
      | simp at hd)

/-- In update-custom-fields mode, a parent-link call in the trace implies
the 200 success response (no parent-link call is ever issued there). -/
theorem modeC_parent_implies_200 (v : Vendor) (d : AffiliateRequest)
    (r : Resp × List Call) (hd : modeC v d = .ok r) (id : JVal) (via : String)
    (hc : (⟨"POST", .parentOf id, .parentVia via⟩ : Call) ∈ r.2) :
    r.1.statusCode = 200 := by
  obtain ⟨resp, calls⟩ := r
  simp only [modeC] at hd
  split at hd <;> (try split at hd) <;> (try split at hd) <;>
      (try split at hd) <;>
    (first
      | (rw [Except.ok.injEq, Prod.mk.injEq] at hd;
         obtain ⟨h1, h2⟩ := hd; subst h2; subst h1; simp_all [catalogCall])
      | simp at hd)

/-- In legacy mode, a parent-link call in the trace implies the 200
success response. -/
theorem legacyMode_parent_implies_200 (v : Vendor) (d : AffiliateRequest)
    (r : Resp × List Call) (hd : legacyMode v d = .ok r) (id : JVal) (via : String)
    (hc : (⟨"POST", .parentOf id, .parentVia via⟩ : Call) ∈ r.2) :
    r.1.statusCode = 200 := by
  obtain ⟨resp, calls⟩ := r
  simp only [legacyMode] at hd
  split at hd <;> (try split at hd) <;> (try split at hd) <;>
      (try split at hd) <;> (try split at hd) <;> (try split at hd) <;>
      (try split at hd) <;> (try split at hd) <;> (try split at hd) <;>
    (first
      | (rw [Except.ok.injEq, Prod.mk.injEq] at hd;
         obtain ⟨h1, h2⟩ := hd; subst h2; subst h1; simp_all [catalogCall])
      | simp at hd)

/-- Handler-level: every creation body in any trace is free of
`parent_id`. -/
theorem handler_create_bodies_no_parent_id (env : Env) (v : Vendor) (req : Request)
    (c : Call) (p : List (String × PVal))
    (hc : c ∈ (handler env v req).2) (hb : c.body = .createPayload p) :
    "parent_id" ∉ p.map Prod.fst := by
  unfold handler at hc
  split at hc
  · simp at hc
  · split at hc
    · simp at hc
    · cases hdp : dispatch env v req.body with
      | error msg => rw [hdp] at hc; simp at hc
      | ok r =>
          rw [hdp] at hc
          dsimp only at hc
          unfold dispatch at hdp
          split at hdp
          · rw [Except.ok.injEq] at hdp; subst hdp; simp at hc
          · split at hdp
            · simp at hdp
            · rename_i d heqb
              split at hdp
              · exact modeA_create_bodies v d r hdp c p hc hb
              · split at hdp
                · exact (modeB_no_create_body v d r hdp c p hc hb).elim
                · split at hdp
                  · exact (modeC_no_create_body v d r hdp c p hc hb).elim
                  · exact legacyMode_create_bodies v d r hdp c p hc hb

/-- Handler-level: a parent-link call in the trace implies the 200 success
response. -/
theorem handler_parent_implies_200 (env : Env) (v : Vendor) (req : Request)
    (id : JVal) (via : String)
    (hc : (⟨"POST", .parentOf id, .parentVia via⟩ : Call) ∈ (handler env v req).2) :
    (handler env v req).1.statusCode = 200 := by
  by_cases h1 : req.httpMethod ≠ "POST"
  · rw [handler, if_pos h1] at hc; simp at hc
  · have hpost : req.httpMethod = "POST" := not_ne_iff.mp h1
    have h2 : ¬((req.httpMethod == "OPTIONS") = true) := by simp [hpost]
    rw [handler, if_neg h1, if_neg h2] at hc ⊢
    cases hdp : dispatch env v req.body with
    | error msg => rw [hdp] at hc; simp at hc
    | ok r =>
        rw [hdp] at hc
        dsimp only at hc ⊢
        unfold dispatch at hdp
        split at hdp
        · rw [Except.ok.injEq] at hdp; subst hdp; simp at hc
        · split at hdp
          · simp at hdp
          · rename_i d heqb
            split at hdp
            · exact modeA_parent_implies_200 v d r hdp id via hc
            · split at hdp
              · exact modeB_parent_implies_200 v d r hdp id via hc
              · split at hdp
                · exact modeC_parent_implies_200 v d r hdp id via hc
                · exact legacyMode_parent_implies_200 v d r hdp id via hc

/-- The handler never reads the vendor's reply to the parent-link call
(the source only logs it), so its outcome cannot change the response or
the trace. -/
theorem handler_parentOk_irrelevant (env : Env) (v : Vendor) (req : Request) (b : Bool) :
    handler env { v with parentOk := b } req = handler env v req := by
  cases v; rfl

/-- **C4.** The creation payload built and POSTed to the vendor never
contains a `parent_id` key, for every input; a parent-link call appears in
a trace only when the handler returns the 200 success response (i.e. only
after creation or enrollment succeeded); and the parent-link call's
outcome never changes the handler's result. -/
theorem c4_parent_id_never_in_creation_payload :
    (∀ (d : AffiliateRequest) (p : List (String × PVal)),
      buildTapfiliatePayload d = .ok p → "parent_id" ∉ p.map Prod.fst) ∧
    (∀ (env : Env) (v : Vendor) (req : Request) (c : Call) (p : List (String × PVal)),
      c ∈ (handler env v req).2 → c.body = .createPayload p →
      "parent_id" ∉ p.map Prod.fst) ∧
    (∀ (env : Env) (v : Vendor) (req : Request) (id : JVal) (via : String),
      (⟨"POST", .parentOf id, .parentVia via⟩ : Call) ∈ (handler env v req).2 →
      (handler env v req).1.statusCode = 200) ∧
    (∀ (env : Env) (v : Vendor) (req : Request) (b : Bool),
      handler env { v with parentOk := b } req = handler env v req) :=
  ⟨parent_id_not_in_build, handler_create_bodies_no_parent_id,
   handler_parent_implies_200, handler_parentOk_irrelevant⟩

/-- The creation payload POSTed for `createOnlyReq`. -/
def createOnlyPayload : List (String × PVal) :=
  [("firstname", .scalar (.vStr "Ada")),
   ("lastname", .scalar (.vStr "Lovelace")),
   ("email", .scalar (.vStr "ada@example.com")),
   ("password", .scalar (.vStr "pw")),
   ("address", .addrObj (.vStr "n/a") "GB"),
   ("company", .compObj (.vStr "n/a"))]

/-- **C4 witness**: concrete instances — the payload built from
`legacyBase` and the payload POSTed on a concrete create-only run carry no
`parent_id` key; a concrete legacy run whose trace contains the
parent-link call returned 200; and flipping the parent-link outcome leaves
a concrete finalize run unchanged. -/
theorem c4_parent_id_never_in_creation_payload_witness :
    "parent_id" ∉ legacyBasePayload.map Prod.fst ∧
    "parent_id" ∉ createOnlyPayload.map Prod.fst ∧
    (handler ⟨some "test-key"⟩ vendorAllOk
      ⟨"POST", .parsed { legacyBase with parent_id := .vStr "42" }⟩).1.statusCode = 200 ∧
    handler envOk { vendorAllOk with parentOk := false } finalizeReq =
      handler envOk vendorAllOk finalizeReq := by
  refine ⟨?_, ?_, ?_, ?_⟩
  · exact c4_parent_id_never_in_creation_payload.1 legacyBase legacyBasePayload rfl
  · exact c4_parent_id_never_in_creation_payload.2.1 envOk vendorAllOk createOnlyReq
      ⟨"POST", .affiliates, .createPayload createOnlyPayload⟩ createOnlyPayload
      (by decide) rfl
  · exact c4_parent_id_never_in_creation_payload.2.2.1 ⟨some "test-key"⟩ vendorAllOk
      ⟨"POST", .parsed { legacyBase with parent_id := .vStr "42" }⟩
      (.vStr "A1") "42" (by decide)
  · exact c4_parent_id_never_in_creation_payload.2.2.2 envOk vendorAllOk finalizeReq false

end CreateAffiliate
